import Mathlib

/-!
Verification of the cron-job-list utility (src/main.go) against its
specification.  The program reads a JSON configuration file listing
host/user destinations, opens one SSH session per destination
concurrently, runs the fixed command on each, and prints per-destination
results.  This file gives a shallow embedding of main.go: the JSON
decoding of the destination list, the per-destination SSH session
lifecycle (NewSession / GetCrontab / Close), the per-destination unit
of work (call), and the top-level fan-out (main), together with
theorems settling the specification claims.
-/

deriving instance DecidableEq for Except

namespace CronJobList

/-- Destination record (main.go 110-113): a host and a user, decoded
from the JSON configuration file. -/
structure Dest where
  host : String
  user : String
deriving Repr, DecidableEq

/-- JSON values, as produced by a JSON lexer/decoder.  Numbers are
modelled as integers; no claim depends on fractional numbers. -/
inductive Json where
  | null
  | bool (b : Bool)
  | num (n : Int)
  | str (s : String)
  | arr (elems : List Json)
  | obj (fields : List (String × Json))
deriving Repr

/-- Unmarshalling a JSON value into a Go string field (encoding/json):
a JSON string stores the string, a JSON null leaves the current value
unchanged and produces no error, anything else is a type error. -/
def unmarshalStringInto (cur : String) (v : Json) : Except String String :=
  match v with
  | .str s => .ok s
  | .null => .ok cur
  | _ => .error "json: cannot unmarshal value into Go struct field Dest of type string"

/-- Case-insensitive equality of two character lists, folding ASCII
letters (encoding/json matches object keys to struct json tags with a
case-insensitive comparison; the tags here, host and user, are ASCII). -/
def eqFoldChars : List Char → List Char → Bool
  | [], [] => true
  | c :: cs, d :: ds => c.toLower == d.toLower && eqFoldChars cs ds
  | _, _ => false

/-- Case-insensitive match of a JSON object key against a struct tag. -/
def keyMatches (k tag : String) : Bool :=
  eqFoldChars k.data tag.data

/-- Processing the fields of a JSON object into a Dest (encoding/json
struct decoding): fields are processed in order; a key matching the
json tag host or user (Go matching is case-insensitive) overwrites
that field; unknown keys are ignored; the first type error stops the
decode. -/
def unmarshalDestFields (cur : Dest) : List (String × Json) → Except String Dest
  | [] => .ok cur
  | (k, v) :: rest =>
    if keyMatches k "host" then
      match unmarshalStringInto cur.host v with
      | .error e => .error e
      | .ok h => unmarshalDestFields { cur with host := h } rest
    else if keyMatches k "user" then
      match unmarshalStringInto cur.user v with
      | .error e => .error e
      | .ok u => unmarshalDestFields { cur with user := u } rest
    else
      unmarshalDestFields cur rest

/-- Unmarshalling one JSON value into a Dest (encoding/json): an object
decodes field-wise starting from the zero value, a null leaves the zero
value, anything else is a type error.  Fields absent from the object
keep the zero value (the empty string) without error. -/
def unmarshalDest (v : Json) : Except String Dest :=
  match v with
  | .null => .ok { host := "", user := "" }
  | .obj fields => unmarshalDestFields { host := "", user := "" } fields
  | _ => .error "json: cannot unmarshal value into Go value of type main.Dest"

/-- Unmarshalling a list of JSON array elements into a list of Dest,
front to back, stopping at the first error. -/
def unmarshalDestsList : List Json → Except String (List Dest)
  | [] => .ok []
  | v :: vs =>
    match unmarshalDest v with
    | .error e => .error e
    | .ok d =>
      match unmarshalDestsList vs with
      | .error e => .error e
      | .ok ds => .ok (d :: ds)

/-- Unmarshalling the top-level JSON value into the Go slice []Dest
(encoding/json): an array decodes element-wise in order, a null leaves
the slice nil (zero destinations), anything else is a type error. -/
def unmarshalDests (v : Json) : Except String (List Dest) :=
  match v with
  | .null => .ok []
  | .arr xs => unmarshalDestsList xs
  | _ => .error "json: cannot unmarshal value into Go value of type []main.Dest"

/-- The configuration file as seen by main.go 47-58: either os.Open
fails, or the stream holds no well-formed leading JSON value (so
decoder.Decode fails with a syntax or EOF error), or it holds a leading
well-formed JSON value, possibly followed by trailing data that
json.Decoder.Decode never reads. -/
inductive ConfigFile where
  | unopenable (msg : String)
  | malformed (msg : String)
  | content (first : Json) (trailing : Bool)
deriving Repr

/-- The destination list loader (main.go 47-58): os.Open followed by
json.NewDecoder(file).Decode of the first JSON value into []Dest.  An
error here makes main print the message and exit 1. -/
def loadDests : ConfigFile → Except String (List Dest)
  | .unopenable msg => .error msg
  | .malformed msg => .error msg
  | .content v _ => unmarshalDests v

/-- Whether the configuration file consists of a single well-formed
JSON document: openable, with a well-formed leading value and nothing
after it.  A file with trailing data is malformed as a JSON document
even though Decoder.Decode accepts its leading value. -/
def isWellFormedJsonFile : ConfigFile → Bool
  | .unopenable _ => false
  | .malformed _ => false
  | .content _ trailing => !trailing

/-- A two-field destination object, the shape the specification
describes for configuration entries. -/
def destJson (h u : String) : Json :=
  Json.obj [("host", Json.str h), ("user", Json.str u)]

example : loadDests (ConfigFile.content (destJson "h" "u") false)
    = .error "json: cannot unmarshal value into Go value of type []main.Dest" := rfl

example : loadDests (ConfigFile.content (Json.arr [destJson "h" "u"]) false)
    = .ok [{ host := "h", user := "u" }] := by decide

example : loadDests (ConfigFile.content (Json.arr [Json.obj []]) false)
    = .ok [{ host := "", user := "" }] := by decide

example : loadDests (ConfigFile.content
      (Json.arr [Json.obj [("host", Json.null), ("user", Json.str "u")]]) false)
    = .ok [{ host := "", user := "u" }] := by decide

/-! Model of fmt.Sprintf applied to a format string with no further
operands, as in main.go 99 (content := fmt.Sprintf(string(bytes))) and
main.go 173 (cmd := fmt.Sprintf("crontab -l")). -/

/-- Printf flag characters, which may precede the verb (fmt). -/
def isFmtFlag (c : Char) : Bool :=
  c == '+' || c == '-' || c == '#' || c == ' ' || c == '0'

/-- Drop leading printf flag characters. -/
def dropFmtFlags : List Char → List Char
  | [] => []
  | c :: cs => if isFmtFlag c then dropFmtFlags cs else c :: cs

/-- Drop leading decimal digits (a printf width or precision). -/
def dropFmtDigits : List Char → List Char
  | [] => []
  | c :: cs => if c.isDigit then dropFmtDigits cs else c :: cs

/-- Drop an optional precision: a dot followed by digits. -/
def dropFmtPrec : List Char → List Char
  | '.' :: cs => dropFmtDigits cs
  | l => l

/-- Skip a whole format specifier body (flags, then width digits, then
an optional precision), yielding the list starting at the verb. -/
def skipFmtSpec (l : List Char) : List Char :=
  dropFmtPrec (dropFmtDigits (dropFmtFlags l))

/-- Output of fmt.Sprintf(format) with no operands, on the character
list of the format (fmt doPrintf, for formats without star widths or
explicit argument indexes): literal characters are copied; at a percent
sign the specifier body is parsed away; a format ending inside a
specifier prints the NOVERB diagnostic; an escaped percent prints one
percent; any other verb has no matching operand and prints the verb
wrapped in the MISSING diagnostic.  The first argument is recursion
fuel, always instantiated with the list length; the scan consumes at
least one character per fuel unit, so the fuel is never exhausted. -/
def sprintfCharsFuel : Nat → List Char → List Char
  | 0, _ => []
  | _ + 1, [] => []
  | fuel + 1, '%' :: rest =>
    match skipFmtSpec rest with
    | [] => "%!(NOVERB)".data
    | v :: r =>
      if v == '%' then '%' :: sprintfCharsFuel fuel r
      else ("%!".data ++ v :: "(MISSING)".data) ++ sprintfCharsFuel fuel r
  | fuel + 1, c :: cs => c :: sprintfCharsFuel fuel cs

/-- fmt.Sprintf(s) with no operands. -/
def sprintfNoArgs (s : String) : String :=
  String.mk (sprintfCharsFuel s.data.length s.data)

example : sprintfNoArgs "crontab -l\n" = "crontab -l\n" := by decide

example : sprintfNoArgs "a%d b" = "a%!d(MISSING) b" := by decide

example : sprintfNoArgs "50%%" = "50%" := by decide

example : sprintfNoArgs "oops 100%" = "oops 100%!(NOVERB)" := by decide

/-! Model of the per-destination SSH session (main.go 115-175).  The
ssh library handles are opaque; what the claims need is which steps
fail and what the remote command returns, supplied by an environment
of oracles. -/

/-- Handle to an established transport connection (ssh.Client),
identified by the dialled address. -/
structure GoConn where
  addr : String
deriving Repr, DecidableEq

/-- Handle to an opened command session (ssh.Session) on a connection,
carrying the remote user from the client configuration. -/
structure GoSSHSession where
  addr : String
  user : String
deriving Repr, DecidableEq

/-- Session value (main.go 116-121): the Go pointer fields conn and
session, each possibly nil, modelled as Option.  The config field is
only read during dialling and the StdinPipe field is never assigned,
so neither carries information any claim needs. -/
structure Session where
  conn : Option GoConn
  session : Option GoSSHSession
deriving Repr, DecidableEq

/-- Result of running a Go statement that can panic. -/
inductive PanicOr (α : Type) where
  | panic (msg : String)
  | ok (a : α)
deriving Repr, DecidableEq

/-- The external world as seen by one unit: reading the key file,
parsing the key, dialling the address ip:port (which also performs the
authentication handshake), creating a session on an established
connection, and running a command in a session (ssh Session.Output,
which can return partial output bytes together with an error). -/
structure SSHEnv where
  readFile : String → Except String String
  parsePrivateKey : String → Except String Unit
  dial : String → Except String Unit
  connNewSession : GoConn → Except String Unit
  sessionOutput : GoSSHSession → String → String × Option String

/-- Go nil-pointer panic message. -/
def nilDeref : String :=
  "runtime error: invalid memory address or nil pointer dereference"

/-- NewSession (main.go 124-158): reads the private key file, parses
it, dials tcp to ip+":"+port, creates a session on the connection;
every failing step returns the pair (nil, err); on success returns a
Session whose conn and session fields are both set.  The Go return
type (*Session, error) is modelled as Option Session × Option String. -/
def NewSession (env : SSHEnv) (ip port user privateKey : String) :
    Option Session × Option String :=
  match env.readFile privateKey with
  | .error e => (none, some e)
  | .ok buf =>
    match env.parsePrivateKey buf with
    | .error e => (none, some e)
    | .ok _ =>
      match env.dial (ip ++ ":" ++ port) with
      | .error e => (none, some e)
      | .ok _ =>
        let conn : GoConn := { addr := ip ++ ":" ++ port }
        match env.connNewSession conn with
        | .error e => (none, some e)
        | .ok _ =>
          (some { conn := some conn,
                  session := some { addr := conn.addr, user := user } }, none)

/-- Session.Close (main.go 161-169): the receiver is a Go pointer,
modelled as Option Session.  On a nil receiver, evaluating s.session
dereferences nil and panics.  On a non-nil receiver the body closes
the session and the connection only under nil guards, so it cannot
panic whatever the fields hold. -/
def SessionClose : Option Session → PanicOr Unit
  | none => .panic nilDeref
  | some _ => .ok ()

/-- Session.GetCrontab (main.go 172-175): formats the fixed command
string and runs s.session.Output(cmd).  On a nil receiver, evaluating
s.session dereferences nil and panics; a nil session field would
likewise panic inside Output.  Returns the ([]byte, error) pair of
Output. -/
def GetCrontab (env : SSHEnv) : Option Session → PanicOr (String × Option String)
  | none => .panic nilDeref
  | some s =>
    match s.session with
    | none => .panic nilDeref
    | some ss => .ok (env.sessionOutput ss (sprintfNoArgs "crontab -l\n"))

/-- What one fan-out unit wrote to each stream, in order, and whether
it panicked (an uncaught panic in any goroutine crashes the whole Go
process). -/
structure UnitResult where
  stdout : List String
  stderr : List String
  panicked : Bool
deriving Repr, DecidableEq

/-- One fan-out unit (main.go 81-102) for one destination; the global
option variables port and privateKey become parameters.  Steps:
NewSession(host, port, user, privateKey); if it returned an error,
print the error line to standard error (note the format arguments are
host then user); defer session.Close(); call session.GetCrontab() —
when NewSession failed, session is the nil pointer and GetCrontab
dereferences it, so the unit panics having printed only that first
error line, and the deferred Close panics on the same nil pointer
while the unit is already panicking; otherwise, on a command error
print the error line once (line 91) and then again together with the
error text (lines 95-96); finally, in every non-panicking case, print
the two-line stdout block, where the output bytes pass through
Sprintf as a format string (line 99). -/
def call (env : SSHEnv) (port privateKey host user : String) : UnitResult :=
  let r := NewSession env host port user privateKey
  let errs1 : List String :=
    match r.2 with
    | some _ => ["ERROR: [Host] " ++ host ++ "@" ++ user ++ "\n"]
    | none => []
  match GetCrontab env r.1 with
  | .panic _ => { stdout := [], stderr := errs1, panicked := true }
  | .ok (bytes, err2) =>
    let errs2 : List String :=
      match err2 with
      | some _ => ["ERROR: [Host] " ++ host ++ "@" ++ user ++ "\n"]
      | none => []
    let errs3 : List String :=
      match err2 with
      | some m => ["ERROR: [Host] " ++ host ++ "@" ++ user ++ "\n", m ++ "\n"]
      | none => []
    let content := sprintfNoArgs bytes
    { stdout := ["[Host] " ++ user ++ "@" ++ host ++ "\n",
                 "[Content] \n" ++ content ++ "\n"],
      stderr := errs1 ++ errs2 ++ errs3,
      panicked := false }

/-- Launch one unit per destination (main.go 75-77), collecting each
unit's writes and panic status in destination order. -/
def fanout (env : SSHEnv) (port privateKey : String) (dests : List Dest) :
    List UnitResult :=
  dests.map fun d => call env port privateKey d.host d.user

/-- How the process ends: a normal exit with a code, or a crash caused
by an uncaught panic in some goroutine (the Go runtime terminates the
whole process, with status 2 by convention). -/
inductive ProcOutcome where
  | exited (code : Nat)
  | crashed
deriving Repr, DecidableEq

/-- Observable result of a whole run: how the process ended, the lines
written to each stream, and how many fan-out units were launched.
Stream contents are listed per unit in destination order; true
concurrent interleaving permutes lines across units, and no claim
below depends on cross-unit ordering. -/
structure MainResult where
  outcome : ProcOutcome
  stdout : List String
  stderr : List String
  unitsLaunched : Nat
deriving Repr, DecidableEq

/-- Command-line option state (main.go 17-31) after flag parsing; the
empty string means the option was not given. -/
structure Flags where
  help : Bool
  quiet : Bool
  privateKey : String
  port : String
deriving Repr, DecidableEq

/-- Lines showUsage (main.go 104-108) writes to standard error; the
flag.PrintDefaults listing of the four flags is elided, as no claim
concerns its text. -/
def usageLines (progName : String) : List String :=
  ["Usage: " ++ progName ++ " [configfile]\n", "Flags:\n"]

/-- main (main.go 34-79): help check; positional-argument count check;
open and decode the configuration file (loadDests); default the
private key path to homeDir/.ssh/id_rsa when the -i option is empty,
exiting 1 if homedir.Dir() fails; default the port to 22; launch one
unit per destination and block on the join barrier (wg.Wait).  cfgOf
gives the configuration file found at a path; homeDir is the result of
homedir.Dir(); filepath.Join of clean components concatenates with
separators. -/
def runMain (env : SSHEnv) (flags : Flags) (progName : String)
    (args : List String) (cfgOf : String → ConfigFile)
    (homeDir : Except String String) : MainResult :=
  if flags.help then
    { outcome := .exited 0, stdout := [], stderr := usageLines progName,
      unitsLaunched := 0 }
  else
    match args with
    | [path] =>
      match loadDests (cfgOf path) with
      | .error msg =>
        { outcome := .exited 1, stdout := [], stderr := [msg ++ "\n"],
          unitsLaunched := 0 }
      | .ok dests =>
        let pkRes : Except String String :=
          if flags.privateKey == "" then
            match homeDir with
            | .error e => .error e
            | .ok home => .ok (home ++ "/.ssh/id_rsa")
          else .ok flags.privateKey
        match pkRes with
        | .error msg =>
          { outcome := .exited 1, stdout := [], stderr := [msg ++ "\n"],
            unitsLaunched := 0 }
        | .ok pk =>
          let port := if flags.port == "" then "22" else flags.port
          let results := fanout env port pk dests
          { outcome := if results.any (fun u => u.panicked) then .crashed
                       else .exited 0,
            stdout := (results.map (fun u => u.stdout)).flatten,
            stderr := (results.map (fun u => u.stderr)).flatten,
            unitsLaunched := dests.length }
    | _ =>
      { outcome := .exited 1, stdout := [],
        stderr := ["ERROR: Arguments length is invalid\n",
                   "Usage: " ++ progName ++ " [configfile]\n"],
        unitsLaunched := 0 }

/-- Units completed when the process terminates, given the order in
which the launched units reach their end: with no panic, the join
barrier (wg.Wait, main.go 73-78) keeps the process alive until all of
them have completed; a panicking unit crashes the process at its turn,
before any unit after it in the order completes. -/
def completedAtTermination : List UnitResult → List UnitResult
  | [] => []
  | u :: rest => if u.panicked then [] else u :: completedAtTermination rest

/-! Concrete environments used to evaluate the model. -/

/-- Environment in which every step succeeds and every command returns
the given output with no error. -/
def envOk (out : String) : SSHEnv :=
  { readFile := fun _ => .ok "KEY",
    parsePrivateKey := fun _ => .ok (),
    dial := fun _ => .ok (),
    connNewSession := fun _ => .ok (),
    sessionOutput := fun _ _ => (out, none) }

/-- Environment in which reading the private key file fails. -/
def envKeyFail (msg : String) : SSHEnv :=
  { envOk "" with readFile := fun _ => .error msg }

/-- Environment in which the TCP dial fails. -/
def envDialFail (msg : String) : SSHEnv :=
  { envOk "" with dial := fun _ => .error msg }

/-- Environment in which the session opens but the remote command
fails, returning the given partial output and the given error. -/
def envExecFail (partialOut msg : String) : SSHEnv :=
  { envOk "" with sessionOutput := fun _ _ => (partialOut, some msg) }

/-! String containment, for stating that an output line contains a
given fragment. -/

/-- Whether the first character list starts with the second. -/
def charsHasPre : List Char → List Char → Bool
  | _, [] => true
  | [], _ :: _ => false
  | c :: cs, d :: ds => c == d && charsHasPre cs ds

/-- Whether the second character list occurs contiguously inside the
first. -/
def charsHasSub : List Char → List Char → Bool
  | [], sub => sub.isEmpty
  | c :: cs, sub => charsHasPre (c :: cs) sub || charsHasSub cs sub

/-- Whether sub occurs as a contiguous substring of s. -/
def strContainsSub (s sub : String) : Bool :=
  charsHasSub s.data sub.data

example : strContainsSub "ERROR: [Host] h1@alice\n" "h1@alice" = true := by decide

example : strContainsSub "ERROR: [Host] h1@alice\n" "alice@h1" = false := by decide

example :
    call (envOk "* * * * * /bin/true\n") "22" "/k" "h1" "u1" =
      { stdout := ["[Host] u1@h1\n", "[Content] \n* * * * * /bin/true\n\n"],
        stderr := [], panicked := false } := by decide

example :
    call (envExecFail "" "Process exited with status 1") "22" "/k" "h1" "u1" =
      { stdout := ["[Host] u1@h1\n", "[Content] \n\n"],
        stderr := ["ERROR: [Host] h1@u1\n", "ERROR: [Host] h1@u1\n",
                   "Process exited with status 1\n"],
        panicked := false } := by decide

example :
    call (envKeyFail "open /k: no such file or directory") "22" "/k" "h1" "u1" =
      { stdout := [],
        stderr := ["ERROR: [Host] h1@u1\n"],
        panicked := true } := by decide

/-! Specification-side characterization of the loader, for the amended
claim C6: a decidable description, written from the amended claim's
words, of exactly which configuration files the loader accepts, to be
proved equivalent to the source-derived loadDests. -/

/-- Whether an Except value is a success. -/
def exceptOk {ε α : Type} : Except ε α → Bool
  | .ok _ => true
  | .error _ => false

/-- Amended claim C6, field condition: a host or user field value
decodes without a type error exactly when it is a string or null (a
null, like an absent field, leaves the empty-string default). -/
def specStringFieldOk : Json → Bool
  | .str _ => true
  | .null => true
  | _ => false

/-- NewSession either returns a nil session pointer or a nil error:
exactly one component of the pair is absent on every path. -/
theorem NewSession_nil_or_noerr (env : SSHEnv) (ip port user pk : String) :
    (NewSession env ip port user pk).1 = none ∨
    (NewSession env ip port user pk).2 = none := by
  unfold NewSession
  rcases h1 : env.readFile pk with e | buf
  · simp [h1]
  rcases h2 : env.parsePrivateKey buf with e | u
  · simp [h1, h2]
  rcases h3 : env.dial (ip ++ ":" ++ port) with e | u
  · simp [h1, h2, h3]
  rcases h4 : env.connNewSession { addr := ip ++ ":" ++ port } with e | u
  · simp [h1, h2, h3, h4]
  · simp [h1, h2, h3, h4]

/-- A host/user field decodes without a type error exactly when its
value is a string or null, whatever value the field currently holds. -/
theorem exceptOk_unmarshalStringInto (cur : String) (v : Json) :
    exceptOk (unmarshalStringInto cur v) = specStringFieldOk v := by
  cases v <;> rfl

/-- C1: the specification requires close(session) to be safe even when
open() failed, tolerating a nil/absent session or connection without
raising.  In the code, when NewSession fails it returns the nil
*Session pointer, and Session.Close on that nil receiver dereferences
it and panics; only the nil guards on the fields of a non-nil receiver
hold.  So on the early-failure exit path the session is not closed:
the unit crashes instead. -/
theorem C1_close_after_failed_open_panics :
    (NewSession (envKeyFail "open /k: no such file or directory")
        "h1" "22" "u1" "/k").1 = none ∧
    SessionClose
        (NewSession (envKeyFail "open /k: no such file or directory")
          "h1" "22" "u1" "/k").1 = .panic nilDeref ∧
    (∀ s : Session, SessionClose (some s) = .ok ()) :=
  ⟨by decide, by decide, fun s => rfl⟩

/-- C2: the specification requires each unit to write exactly one of
the two results, never both.  In the code, when the session opens but
the remote command fails, the unit writes the error lines to standard
error and then still writes the success-format block to standard
output for the same destination. -/
theorem C2_both_streams_on_exec_failure :
    (call (envExecFail "" "Process exited with status 1") "22" "/k" "h1" "u1").stdout
      = ["[Host] u1@h1\n", "[Content] \n\n"] ∧
    (call (envExecFail "" "Process exited with status 1") "22" "/k" "h1" "u1").stderr
      = ["ERROR: [Host] h1@u1\n", "ERROR: [Host] h1@u1\n",
         "Process exited with status 1\n"] :=
  ⟨by decide, by decide⟩

/-- C3: the specification requires the block to contain the exact
bytes returned by the remote command.  In the code, the bytes pass
through Sprintf as a format string (main.go 99), so any percent verb
in the remote output is replaced by a MISSING diagnostic: output
containing the characters percent-d is printed mangled, not exactly. -/
theorem C3_output_bytes_reinterpreted_as_format :
    (call (envOk "MAILTO=x%d\n") "22" "/k" "h1" "u1").panicked = false ∧
    (call (envOk "MAILTO=x%d\n") "22" "/k" "h1" "u1").stdout
      = ["[Host] u1@h1\n", "[Content] \nMAILTO=x%!d(MISSING)\n\n"] ∧
    (call (envOk "MAILTO=x%d\n") "22" "/k" "h1" "u1").stdout
      ≠ ["[Host] u1@h1\n", "[Content] \nMAILTO=x%d\n\n"] :=
  ⟨by decide, by decide, by decide⟩

/-- C4 counterexample: the claim says the error line is ERROR: [Host]
user@host, the user name first, and contains the destination's
user@host.  For host h1 and user alice, the code prints the line
ERROR: [Host] h1@alice, which does not contain alice@h1; the format
arguments on the error paths are host first, then user. -/
theorem C4_error_line_counterexample :
    (call (envExecFail "" "exit status 1") "22" "/k" "h1" "alice").stderr.head?
      = some "ERROR: [Host] h1@alice\n" ∧
    strContainsSub "ERROR: [Host] h1@alice\n" "alice@h1" = false ∧
    strContainsSub "ERROR: [Host] h1@alice\n" "h1@alice" = true :=
  ⟨by decide, by decide, by decide⟩

/-- C4 amended: each stderr line identifying a failed destination has
the form ERROR: [Host] host@user — host name first, then the at sign,
then the user name — and therefore contains the destination's
host@user.  On a command-execution failure the line is printed twice
followed by the underlying error text; on a key or connection failure
it is printed once (before the unit crashes on the nil session). -/
theorem C4_amended_error_lines (host user msg pOut : String) :
    (call (envExecFail pOut msg) "22" "/k" host user).stderr
      = ["ERROR: [Host] " ++ host ++ "@" ++ user ++ "\n",
         "ERROR: [Host] " ++ host ++ "@" ++ user ++ "\n",
         msg ++ "\n"] ∧
    (call (envKeyFail msg) "22" "/k" host user).stderr
      = ["ERROR: [Host] " ++ host ++ "@" ++ user ++ "\n"] ∧
    (call (envDialFail msg) "22" "/k" host user).stderr
      = ["ERROR: [Host] " ++ host ++ "@" ++ user ++ "\n"] :=
  ⟨rfl, rfl, rfl⟩

/-- C5: the runner does launch exactly one unit per destination, but
the claim that the process terminates only after all launched units
have completed fails: a destination whose NewSession fails makes its
unit panic on the nil session, which crashes the whole process at that
unit's turn, before later units complete.  With two destinations and
an unreadable key, no unit completes although two were launched. -/
theorem C5_panic_defeats_join_barrier :
    (∀ env port pk dests, (fanout env port pk dests).length = dests.length) ∧
    (fanout (envKeyFail "no key") "22" "/k"
        [{ host := "h1", user := "u1" }, { host := "h2", user := "u2" }]).length = 2 ∧
    completedAtTermination
        (fanout (envKeyFail "no key") "22" "/k"
          [{ host := "h1", user := "u1" }, { host := "h2", user := "u2" }]) = [] ∧
    ¬ (∀ ordered : List UnitResult,
        List.Perm ordered
          (fanout (envKeyFail "no key") "22" "/k"
            [{ host := "h1", user := "u1" }, { host := "h2", user := "u2" }]) →
        (completedAtTermination ordered).length
          = (fanout (envKeyFail "no key") "22" "/k"
              [{ host := "h1", user := "u1" }, { host := "h2", user := "u2" }]).length) :=
  ⟨fun env port pk dests => by simp [fanout],
   by decide, by decide,
   fun h => absurd (h _ (List.Perm.refl _)) (by decide)⟩

/-- C7: execution errors after a successful open are indeed printed
and swallowed, leaving exit code 0; but a key, connection, or
session-creation error is only printed before the unit dereferences
the nil session and panics, which crashes the whole process (so the
exit status is the runtime's crash status, not 0) and aborts every
other unit.  Shown at one failing and one succeeding configuration. -/
theorem C7_key_failure_crashes_process :
    (runMain (envExecFail "" "Process exited with status 1")
        { help := false, quiet := false, privateKey := "/k", port := "" }
        "cron-job-list" ["cfg"]
        (fun _ => ConfigFile.content (Json.arr [destJson "h1" "u1"]) false)
        (.ok "/home/me")).outcome = .exited 0 ∧
    (runMain (envKeyFail "open /k: no such file or directory")
        { help := false, quiet := false, privateKey := "/k", port := "" }
        "cron-job-list" ["cfg"]
        (fun _ => ConfigFile.content
          (Json.arr [destJson "h1" "u1", destJson "h2" "u2"]) false)
        (.ok "/home/me")).outcome = .crashed ∧
    ProcOutcome.crashed ≠ ProcOutcome.exited 0 :=
  ⟨by decide, by decide, by decide⟩

/-- C8 counterexample: the claim says every malformed JSON
configuration file yields exit code 1 and no connection attempts.  A
file whose leading JSON value is well-formed but which is followed by
trailing data is not a well-formed JSON document, yet
json.Decoder.Decode never reads past the first value: the run launches
its unit and exits 0. -/
theorem C8_trailing_data_still_runs :
    isWellFormedJsonFile (ConfigFile.content (Json.arr [destJson "h1" "u1"]) true)
      = false ∧
    runMain (envOk "out\n")
        { help := false, quiet := false, privateKey := "/k", port := "22" }
        "cron-job-list" ["cfg"]
        (fun _ => ConfigFile.content (Json.arr [destJson "h1" "u1"]) true)
        (.ok "/home/me")
      = { outcome := .exited 0,
          stdout := ["[Host] u1@h1\n", "[Content] \nout\n\n"],
          stderr := [], unitsLaunched := 1 } :=
  ⟨by decide, by decide⟩

/-- C8 amended: whenever the configuration file cannot be opened or
its leading JSON value is malformed, the process exits with code 1,
prints only the error message, and launches no unit, so no connection
is attempted; data trailing a well-formed leading JSON value is
ignored rather than treated as malformed. -/
theorem C8_amended_malformed_leading_value (msg : String) (env : SSHEnv) (q : Bool)
    (pk po prog path : String) (hd : Except String String) :
    runMain env { help := false, quiet := q, privateKey := pk, port := po }
        prog [path] (fun _ => ConfigFile.malformed msg) hd
      = { outcome := .exited 1, stdout := [], stderr := [msg ++ "\n"],
          unitsLaunched := 0 } ∧
    runMain env { help := false, quiet := q, privateKey := pk, port := po }
        prog [path] (fun _ => ConfigFile.unopenable msg) hd
      = { outcome := .exited 1, stdout := [], stderr := [msg ++ "\n"],
          unitsLaunched := 0 } :=
  ⟨rfl, rfl⟩

/-- C9 counterexample: the claim says a configuration parsing to an
empty destination list always completes with no output and exit code
0.  When the -i option is empty and the home directory cannot be
resolved, main exits 1 with the homedir error on standard error even
though the destination list is empty; the key-path default is
computed after decoding, before the fan-out. -/
theorem C9_homedir_failure_on_empty_list :
    runMain (envOk "")
        { help := false, quiet := false, privateKey := "", port := "" }
        "cron-job-list" ["cfg"]
        (fun _ => ConfigFile.content (Json.arr []) false)
        (.error "homedir: blank output when reading home directory")
      = { outcome := .exited 1, stdout := [],
          stderr := ["homedir: blank output when reading home directory\n"],
          unitsLaunched := 0 } := by decide

/-- C9 amended: when the configuration file parses to an empty
destination list and the private key path is available — the -i option
was given, or the home directory resolves so the default path can be
built — the run launches no unit, writes nothing to either stream, and
exits 0. -/
theorem C9_amended_empty_list (env : SSHEnv) (q : Bool) (pk po prog path : String)
    (hd : Except String String) (t : Bool)
    (hres : pk ≠ "" ∨ ∃ h, hd = .ok h) :
    runMain env { help := false, quiet := q, privateKey := pk, port := po }
        prog [path] (fun _ => ConfigFile.content (Json.arr []) t) hd
      = { outcome := .exited 0, stdout := [], stderr := [],
          unitsLaunched := 0 } := by
  rcases hres with hpk | ⟨h, hh⟩
  · have hb : (pk == "") = false := beq_eq_false_iff_ne.mpr hpk
    simp [runMain, loadDests, unmarshalDests, unmarshalDestsList, fanout, hb]
  · subst hh
    by_cases hb : pk == ""
    · simp [runMain, loadDests, unmarshalDests, unmarshalDestsList, fanout, hb]
    · simp [runMain, loadDests, unmarshalDests, unmarshalDestsList, fanout, hb]

/-- C9 amended, witness at a concrete configuration. -/
theorem C9_amended_empty_list_witness :
    runMain (envOk "")
        { help := false, quiet := false, privateKey := "/k", port := "" }
        "cron-job-list" ["cfg"]
        (fun _ => ConfigFile.content (Json.arr []) false) (.ok "/home/me")
      = { outcome := .exited 0, stdout := [], stderr := [],
          unitsLaunched := 0 } :=
  C9_amended_empty_list (envOk "") false "/k" "" "cron-job-list" "cfg"
    (.ok "/home/me") false (Or.inl (by decide))

/-- C10: every error path of NewSession returns the nil *Session
pointer alongside the error, so a caller that goes on using the
returned value — as call does by invoking session.GetCrontab() after
merely logging the error — dereferences nil: GetCrontab on the nil
pointer panics, and the unit's panic flag is set. -/
theorem C10_NewSession_error_returns_nil (env : SSHEnv) (ip port user pk : String)
    (herr : (NewSession env ip port user pk).2 ≠ none) :
    (NewSession env ip port user pk).1 = none ∧
    GetCrontab env (NewSession env ip port user pk).1 = .panic nilDeref ∧
    (call env port pk ip user).panicked = true := by
  have h1 : (NewSession env ip port user pk).1 = none := by
    rcases NewSession_nil_or_noerr env ip port user pk with h | h
    · exact h
    · exact absurd h herr
  refine ⟨h1, by rw [h1]; rfl, ?_⟩
  simp [call, h1, GetCrontab]

/-- C10, witness at a concrete failing environment. -/
theorem C10_NewSession_error_returns_nil_witness :
    (NewSession (envKeyFail "no key") "h1" "22" "u1" "/k").1 = none ∧
    GetCrontab (envKeyFail "no key")
        (NewSession (envKeyFail "no key") "h1" "22" "u1" "/k").1
      = .panic nilDeref ∧
    (call (envKeyFail "no key") "22" "/k" "h1" "u1").panicked = true :=
  C10_NewSession_error_returns_nil (envKeyFail "no key") "h1" "22" "u1" "/k"
    (by decide)

end CronJobList
